import Mathlib

/-
Verification development for a small HTTP token-relay server (src/server.js).

The server exposes GET endpoints that validate two environment variables,
issue one outbound HTTP GET to a fixed upstream URL carrying the secret key
in an "xi-api-key" header, and relay the upstream status/body back (raw, or
with small JSON reshaping).  We model:

  * JSON values and a JSON.parse-style parser (integers only; fractional and
    exponent number forms and \u string escapes are rejected rather than
    parsed, which only matters for inputs none of the claims use);
  * the comma-split / trim / drop-empty allow-list construction and the cors
    origin callback (JS truthiness: an absent header and an empty-string
    header value are both falsy);
  * base64 decoding (Buffer.from(_, 'base64'): non-alphabet characters are
    ignored, a trailing group of 2 or 3 characters yields 1 or 2 bytes, a
    lone trailing character is dropped) and UTF-8 byte decoding;
  * encodeURIComponent;
  * each route handler as a function from the environment and a fetch oracle
    (mapping each URL to either a completed response or a thrown error) to
    the response sent to the caller plus the list of outbound requests made.

Messages of runtime-generated JS exceptions (SyntaxError/TypeError text) are
abbreviated to fixed strings; nothing proved below depends on their text.
-/

namespace TokenServer

/-- JSON values as produced by JSON.parse. -/
inductive Json where
  | null : Json
  | bool (b : Bool) : Json
  | num (n : Int) : Json
  | str (s : String) : Json
  | arr (elems : List Json) : Json
  | obj (fields : List (String × Json)) : Json

/-- JSON whitespace accepted by JSON.parse between tokens: space, tab,
line feed, carriage return. -/
def jsonWs (c : Char) : Bool :=
  [Char.ofNat 32, Char.ofNat 9, Char.ofNat 10, Char.ofNat 13].contains c

/-- Drop leading JSON whitespace. -/
def skipWs : List Char → List Char
  | [] => []
  | c :: cs => if jsonWs c then skipWs cs else c :: cs

/-- The two-character JSON string escapes, as escape-name/result pairs
(the \u form is not modelled; it makes the parse fail instead). -/
def escTable : List (Char × Char) :=
  [('"', Char.ofNat 34), ('\\', Char.ofNat 92), ('/', Char.ofNat 47),
   ('b', Char.ofNat 8), ('f', Char.ofNat 12), ('n', Char.ofNat 10),
   ('r', Char.ofNat 13), ('t', Char.ofNat 9)]

/-- Interpretation of a character following a backslash in a JSON string. -/
def escChar (c : Char) : Option Char :=
  (escTable.find? (fun p => p.1 = c)).map (fun p => p.2)

/-- Parse the remainder of a JSON string after the opening quote, returning
the decoded characters and the input following the closing quote. -/
def parseStrRest : List Char → Option (List Char × List Char)
  | [] => none
  | '"' :: rest => some ([], rest)
  | '\\' :: e :: rest =>
    match escChar e with
    | some c =>
      match parseStrRest rest with
      | some (s, r) => some (c :: s, r)
      | none => none
    | none => none
  | c :: rest =>
    if c.toNat < 32 then none
    else
      match parseStrRest rest with
      | some (s, r) => some (c :: s, r)
      | none => none

/-- Decimal digits to a natural number. -/
def digsToNat (l : List Char) : Nat :=
  l.foldl (fun a c => a * 10 + (c.toNat - 48)) 0

/-- Parse a nonnegative JSON integer literal (no leading zeros; a following
'.', 'e' or 'E' makes the parse fail rather than misread a float). -/
def parseNum (cs : List Char) : Option (Nat × List Char) :=
  let digs := cs.takeWhile (fun c => c.isDigit)
  let rest := cs.dropWhile (fun c => c.isDigit)
  if digs = [] then none
  else if 1 < digs.length ∧ digs.headD '0' = '0' then none
  else
    match rest with
    | c :: _ => if c = '.' ∨ c = 'e' ∨ c = 'E' then none else some (digsToNat digs, rest)
    | [] => some (digsToNat digs, [])

mutual

/-- Parse one JSON value; `fuel` bounds the recursion depth. -/
def parseValue : Nat → List Char → Option (Json × List Char)
  | 0, _ => none
  | fuel + 1, cs =>
    match skipWs cs with
    | [] => none
    | 'n' :: rest =>
      if rest.take 3 = ['u', 'l', 'l'] then some (.null, rest.drop 3) else none
    | 't' :: rest =>
      if rest.take 3 = ['r', 'u', 'e'] then some (.bool true, rest.drop 3) else none
    | 'f' :: rest =>
      if rest.take 4 = ['a', 'l', 's', 'e'] then some (.bool false, rest.drop 4) else none
    | '"' :: rest =>
      match parseStrRest rest with
      | some (s, r) => some (.str (String.mk s), r)
      | none => none
    | '[' :: rest =>
      match skipWs rest with
      | ']' :: r => some (.arr [], r)
      | other => match parseElems fuel other with
        | some (l, r) => some (.arr l, r)
        | none => none
    | '{' :: rest =>
      match skipWs rest with
      | '}' :: r => some (.obj [], r)
      | other => match parseMembers fuel other with
        | some (l, r) => some (.obj l, r)
        | none => none
    | c :: rest =>
      if c = '-' then
        match parseNum rest with
        | some (n, r) => some (.num (-(n : Int)), r)
        | none => none
      else if c.isDigit then
        match parseNum (c :: rest) with
        | some (n, r) => some (.num (n : Int), r)
        | none => none
      else none

/-- Parse the elements of a nonempty JSON array up to and including ']'. -/
def parseElems : Nat → List Char → Option (List Json × List Char)
  | 0, _ => none
  | fuel + 1, cs =>
    match parseValue fuel cs with
    | none => none
    | some (j, r) =>
      match skipWs r with
      | ',' :: r2 =>
        match parseElems fuel r2 with
        | some (l, r3) => some (j :: l, r3)
        | none => none
      | ']' :: r2 => some ([j], r2)
      | _ => none

/-- Parse the members of a nonempty JSON object up to and including the
closing brace. -/
def parseMembers : Nat → List Char → Option (List (String × Json) × List Char)
  | 0, _ => none
  | fuel + 1, cs =>
    match skipWs cs with
    | '"' :: r =>
      match parseStrRest r with
      | some (k, r1) =>
        match skipWs r1 with
        | ':' :: r2 =>
          match parseValue fuel r2 with
          | some (v, r3) =>
            match skipWs r3 with
            | ',' :: r4 =>
              match parseMembers fuel r4 with
              | some (l, r5) => some ((String.mk k, v) :: l, r5)
              | none => none
            | '}' :: r4 => some ([(String.mk k, v)], r4)
            | _ => none
          | none => none
        | _ => none
      | none => none
    | _ => none

end

/-- Model of JSON.parse: parse one value, require only whitespace after it. -/
def parseJson (s : String) : Option Json :=
  match parseValue (4 * s.data.length + 8) s.data with
  | some (j, r) => if skipWs r = [] then some j else none
  | none => none

/-- Property access on a JSON object (duplicate keys: the last one wins, as
in JSON.parse); any non-object receiver yields `none` (undefined). -/
def jsonGetField : Json → String → Option Json
  | .obj fields, k => fields.foldl (fun acc p => if p.1 = k then some p.2 else acc) none
  | _, _ => none

/-! ### String utilities used by the server -/

/-- Whitespace removed by JS String.prototype.trim (ASCII part; the claims
only involve ASCII configuration strings): space, tab, line feed, carriage
return, vertical tab, form feed. -/
def jsWhitespace (c : Char) : Bool :=
  [Char.ofNat 32, Char.ofNat 9, Char.ofNat 10, Char.ofNat 13,
    Char.ofNat 11, Char.ofNat 12].contains c

/-- JS String.prototype.trim on a character list. -/
def trimChars (l : List Char) : List Char :=
  ((l.dropWhile jsWhitespace).reverse.dropWhile jsWhitespace).reverse

/-- JS String.prototype.split with a one-character separator:
`"".split(',') = [""]`, and every separator occurrence starts a new group. -/
def splitOnChar (sep : Char) : List Char → List (List Char)
  | [] => [[]]
  | c :: cs =>
    if c = sep then [] :: splitOnChar sep cs
    else (c :: (splitOnChar sep cs).headD []) :: (splitOnChar sep cs).tail

/-- The origin allow-list: `(ALLOWED_ORIGINS || '').split(',').map(trim).filter(Boolean)`. -/
def allowListOf (s : String) : List String :=
  (((splitOnChar ',' s.data).map (fun g => String.mk (trimChars g))).filter
    (fun t => t ≠ ""))

/-- Global single-character replacement, as in a .replace call with a global
one-character regex. -/
def replaceChar (a b : Char) (l : List Char) : List Char :=
  l.map (fun c => if c = a then b else c)

/-! ### encodeURIComponent -/

/-- Characters encodeURIComponent leaves unescaped. -/
def isURIUnreserved (c : Char) : Bool :=
  c.isAlpha || c.isDigit || c == '-' || c == '_' || c == '.' || c == '!' ||
    c == '~' || c == '*' || c == Char.ofNat 39 || c == '(' || c == ')'

/-- UTF-8 bytes of one character. -/
def charUtf8Bytes (c : Char) : List Nat :=
  let n := c.toNat
  if n < 128 then [n]
  else if n < 2048 then [192 + n / 64, 128 + n % 64]
  else if n < 65536 then [224 + n / 4096, 128 + (n / 64) % 64, 128 + n % 64]
  else [240 + n / 262144, 128 + (n / 4096) % 64, 128 + (n / 64) % 64, 128 + n % 64]

/-- Uppercase hexadecimal digit. -/
def hexDigitChar (n : Nat) : Char :=
  if n < 10 then Char.ofNat (48 + n) else Char.ofNat (55 + n)

/-- Percent-encoding of one byte. -/
def percentByte (b : Nat) : List Char :=
  ['%', hexDigitChar (b / 16), hexDigitChar (b % 16)]

/-- JS encodeURIComponent. -/
def encodeURIComponent (s : String) : String :=
  String.mk (s.data.foldr
    (fun c acc =>
      (if isURIUnreserved c then [c]
       else (charUtf8Bytes c).foldr (fun b bacc => percentByte b ++ bacc) []) ++ acc)
    [])

/-! ### Base64 and UTF-8 decoding (Buffer.from(_, 'base64').toString('utf8')) -/

/-- Value of a base64 alphabet character; `none` for characters Buffer.from
ignores (including '=' padding). -/
def b64CharVal (c : Char) : Option Nat :=
  if 'A' ≤ c ∧ c ≤ 'Z' then some (c.toNat - 65)
  else if 'a' ≤ c ∧ c ≤ 'z' then some (c.toNat - 97 + 26)
  else if '0' ≤ c ∧ c ≤ '9' then some (c.toNat - 48 + 52)
  else if c = '+' then some 62
  else if c = '/' then some 63
  else none

/-- Groups of 6-bit values to bytes; a trailing group of 2 or 3 values yields
1 or 2 bytes and a lone trailing value is dropped, as Buffer.from does. -/
def b64Groups : List Nat → List Nat
  | a :: b :: c :: d :: rest =>
    (a * 4 + b / 16) :: ((b % 16) * 16 + c / 4) :: ((c % 4) * 64 + d) :: b64Groups rest
  | [a, b, c] => [a * 4 + b / 16, (b % 16) * 16 + c / 4]
  | [a, b] => [a * 4 + b / 16]
  | [_] => []
  | [] => []

/-- Buffer.from(chars, 'base64') as a byte list. -/
def base64DecodeVals (cs : List Char) : List Nat :=
  b64Groups (cs.filterMap b64CharVal)

/-- Is a byte a UTF-8 continuation byte. -/
def isContByte (b : Nat) : Bool := 128 ≤ b && b < 192

/-- Decode UTF-8 bytes to characters; malformed sequences produce U+FFFD in
Node, which we approximate (Char.ofNat falls back to NUL on non-scalar
values; no claim touches malformed input). -/
def utf8DecodeAux : Nat → List Nat → List Char
  | 0, _ => []
  | _ + 1, [] => []
  | fuel + 1, b :: rest =>
    if b < 128 then Char.ofNat b :: utf8DecodeAux fuel rest
    else if 192 ≤ b && b < 224 then
      match rest with
      | b2 :: rest2 =>
        if isContByte b2 then
          Char.ofNat ((b - 192) * 64 + (b2 - 128)) :: utf8DecodeAux fuel rest2
        else Char.ofNat 65533 :: utf8DecodeAux fuel rest
      | [] => [Char.ofNat 65533]
    else if 224 ≤ b && b < 240 then
      match rest with
      | b2 :: b3 :: rest3 =>
        if isContByte b2 && isContByte b3 then
          Char.ofNat ((b - 224) * 4096 + (b2 - 128) * 64 + (b3 - 128)) :: utf8DecodeAux fuel rest3
        else Char.ofNat 65533 :: utf8DecodeAux fuel rest
      | _ => [Char.ofNat 65533]
    else if 240 ≤ b && b < 248 then
      match rest with
      | b2 :: b3 :: b4 :: rest4 =>
        if isContByte b2 && isContByte b3 && isContByte b4 then
          Char.ofNat ((b - 240) * 262144 + (b2 - 128) * 4096 + (b3 - 128) * 64 + (b4 - 128)) ::
            utf8DecodeAux fuel rest4
        else Char.ofNat 65533 :: utf8DecodeAux fuel rest
      | _ => [Char.ofNat 65533]
    else Char.ofNat 65533 :: utf8DecodeAux fuel rest

/-- Buffer.prototype.toString('utf8'). -/
def utf8Decode (bytes : List Nat) : String :=
  String.mk (utf8DecodeAux bytes.length bytes)

/-! ### Server model -/

/-- Process environment as read by the handlers.  `process.env.X` is a string
or undefined; the code only tests the values for JS falsiness (undefined or
empty string) before using them, so both cases are modelled as `""`. -/
structure Env where
  elevenApiKey : String
  elevenAgentId : String
  allowedOrigins : String

/-- Outcome of one `await fetch(url, ...)`: either the upstream responded
(any status, body read as text), or the call threw, with the stringified
error. -/
inductive FetchOutcome where
  | success (status : Nat) (body : String)
  | failure (err : String)

/-- The network, as observed by one request: what each URL would return. -/
abbrev Oracle := String → FetchOutcome

/-- One outbound HTTP GET made by a handler. -/
structure OutboundRequest where
  url : String
  headers : List (String × String)

/-- Body of a response to the caller: raw text (res.send of the upstream
text) or a JSON value (res.json). -/
inductive ResBody where
  | text (s : String) : ResBody
  | json (j : Json) : ResBody

/-- Response returned to the caller. -/
structure Response where
  status : Nat
  body : ResBody

/-- Runtime exceptions thrown inside a handler other than by fetch itself.
Their V8 message text is abbreviated; only their existence matters. -/
inductive JsErr where
  | invalidJson
  | invalidAccess

/-- String(e) for the modelled runtime exceptions. -/
def jsErrString : JsErr → String
  | .invalidJson => "SyntaxError: invalid JSON"
  | .invalidAccess => "TypeError: invalid access"

/-- Headers attached to every outbound request. -/
def mkReq (url key : String) : OutboundRequest :=
  { url := url, headers := [("xi-api-key", key)] }

/-- 500 response for absent configuration. -/
def missingEnvResp : Response :=
  ⟨500, .json (.obj [("error", .str "missing_env_vars")])⟩

/-- 500 response produced by the catch-all handler boundary. -/
def serverErrorResp (detail : String) : Response :=
  ⟨500, .json (.obj [("error", .str "server_error"), ("detail", .str detail)])⟩

/-- Synthetic 404 of the verify-agent loop fallthrough. -/
def agentNotFoundResp (agentId : String) : Response :=
  ⟨404, .json (.obj [("ok", .bool false), ("error", .str "agent_not_found_on_any_endpoint"),
    ("agentId", .str agentId)])⟩

/-- Upstream URL of the conversation-token endpoint. -/
def tokenUrl (agentId : String) : String :=
  "https://api.elevenlabs.io/v1/convai/conversation/token?agent_id=" ++
    encodeURIComponent agentId

/-- Upstream URL of the signed-url endpoint. -/
def signedUrlUrl (agentId : String) : String :=
  "https://api.elevenlabs.io/v1/convai/conversation/get-signed-url?agent_id=" ++
    encodeURIComponent agentId

/-- First verify-agent candidate (classic). -/
def verifyUrl1 (agentId : String) : String :=
  "https://api.elevenlabs.io/v1/agents/" ++ encodeURIComponent agentId

/-- Second verify-agent candidate (convai detail). -/
def verifyUrl2 (agentId : String) : String :=
  "https://api.elevenlabs.io/v1/convai/agents/" ++ encodeURIComponent agentId

/-- Third verify-agent candidate (convai list). -/
def verifyUrl3 : String :=
  "https://api.elevenlabs.io/v1/convai/agents?limit=200"

/-- The tryEndpoints list, in its fixed order. -/
def verifyUrls (agentId : String) : List String :=
  [verifyUrl1 agentId, verifyUrl2 agentId, verifyUrl3]

/-- node-fetch `r.ok`. -/
def fetchOk (s : Nat) : Prop := 200 ≤ s ∧ s < 300

instance (s : Nat) : Decidable (fetchOk s) := by unfold fetchOk; infer_instance

/-- Relay of a fetch outcome as the token and signed-url endpoints do:
pass status and raw text through; a thrown fetch is caught and becomes the
generic 500. -/
def rawRelayResponse : FetchOutcome → Response
  | .failure e => serverErrorResp e
  | .success s t => ⟨s, .text t⟩

/-- GET /api/webrtc-token. -/
def webrtcTokenHandler (env : Env) (f : Oracle) : Response × List OutboundRequest :=
  if env.elevenApiKey = "" ∨ env.elevenAgentId = "" then (missingEnvResp, [])
  else
    (rawRelayResponse (f (tokenUrl env.elevenAgentId)),
      [mkReq (tokenUrl env.elevenAgentId) env.elevenApiKey])

/-- GET /api/webrtc-signed-url. -/
def webrtcSignedUrlHandler (env : Env) (f : Oracle) : Response × List OutboundRequest :=
  if env.elevenApiKey = "" ∨ env.elevenAgentId = "" then (missingEnvResp, [])
  else
    (rawRelayResponse (f (signedUrlUrl env.elevenAgentId)),
      [mkReq (signedUrlUrl env.elevenAgentId) env.elevenApiKey])

/-- The `agents` collection of a parsed body: defined exactly when
`Array.isArray(json?.agents)`. -/
def getAgentsArr (j : Json) : Option (List Json) :=
  match jsonGetField j "agents" with
  | some (.arr l) => some l
  | _ => none

/-- Does a list entry match the configured agent id:
`a?.agent_id === agentId || a?.id === agentId`. -/
def agentMatches (agentId : String) (a : Json) : Bool :=
  (match jsonGetField a "agent_id" with
   | some (.str s) => s == agentId
   | _ => false) ||
  (match jsonGetField a "id" with
   | some (.str s) => s == agentId
   | _ => false)

/-- Body of the verify-agent `if (r.ok)` block: the response it returns, or
`none` when control falls out of the block (array-shaped body whose entries
never match). -/
def verifyOkStep (agentId url t : String) : Option Response :=
  match parseJson t with
  | none => some ⟨200, .json (.obj [("ok", .bool true), ("from", .str url), ("raw", .str t)])⟩
  | some j =>
    match getAgentsArr j with
    | none => some ⟨200, .json (.obj [("ok", .bool true), ("from", .str url), ("body", j)])⟩
    | some l =>
      match l.find? (agentMatches agentId) with
      | some found =>
        some ⟨200, .json (.obj [("ok", .bool true), ("from", .str url), ("agent", found)])⟩
      | none => none

/-- One verify-agent loop iteration on a completed fetch: the response it
returns, or `none` when the loop continues to the next candidate. -/
def verifyStep (agentId url : String) (s : Nat) (t : String) : Option Response :=
  match (if fetchOk s then verifyOkStep agentId url t else none) with
  | some r => some r
  | none => if s ≠ 404 then some ⟨s, .text t⟩ else none

/-- The verify-agent for-loop over the remaining candidate URLs, together
with the outbound requests it makes.  A thrown fetch propagates to the
handler's catch and becomes the generic 500. -/
def verifyLoop (f : Oracle) (key agentId : String) : List String → Response × List OutboundRequest
  | [] => (agentNotFoundResp agentId, [])
  | url :: rest =>
    match f url with
    | .failure m => (serverErrorResp m, [mkReq url key])
    | .success s t =>
      match verifyStep agentId url s t with
      | some r => (r, [mkReq url key])
      | none =>
        let next := verifyLoop f key agentId rest
        (next.1, mkReq url key :: next.2)

/-- GET /api/verify-agent (multi-endpoint variant). -/
def verifyAgentHandler (env : Env) (f : Oracle) : Response × List OutboundRequest :=
  if env.elevenApiKey = "" ∨ env.elevenAgentId = "" then (missingEnvResp, [])
  else verifyLoop f env.elevenApiKey env.elevenAgentId (verifyUrls env.elevenAgentId)

/-- Response of the debug endpoint once the fetch outcome is known: r.json()
(a throwing parse is caught), the not-ok forward, then token extraction,
middle-segment base64url decode, and JSON.parse of the decoded payload. -/
def debugResponse (agentId : String) : FetchOutcome → Response
  | .failure m => serverErrorResp m
  | .success s t =>
    match parseJson t with
    | none => serverErrorResp (jsErrString .invalidJson)
    | some j =>
      if ¬ fetchOk s then ⟨s, .json j⟩
      else
        match jsonGetField j "token" with
        | some (.str tok) =>
          match (splitOnChar '.' tok.data).drop 1 |>.head? with
          | some seg =>
            match parseJson (utf8Decode (base64DecodeVals
                (replaceChar '_' '/' (replaceChar '-' '+' seg)))) with
            | some payload =>
              ⟨200, .json (.obj [("token_issued_for_agent_env", .str agentId),
                ("decoded_payload", payload)])⟩
            | none => serverErrorResp (jsErrString .invalidJson)
          | none => serverErrorResp (jsErrString .invalidAccess)
        | some _ => serverErrorResp (jsErrString .invalidAccess)
        | none => serverErrorResp (jsErrString .invalidAccess)

/-- GET /api/webrtc-token-debug. -/
def webrtcTokenDebugHandler (env : Env) (f : Oracle) : Response × List OutboundRequest :=
  if env.elevenApiKey = "" ∨ env.elevenAgentId = "" then (missingEnvResp, [])
  else
    (debugResponse env.elevenAgentId (f (tokenUrl env.elevenAgentId)),
      [mkReq (tokenUrl env.elevenAgentId) env.elevenApiKey])

/-- Route dispatch, including the health routes and the friendly 404. -/
def dispatch (env : Env) (path : String) (f : Oracle) : Response × List OutboundRequest :=
  if path = "/" then (⟨200, .text "OK"⟩, [])
  else if path = "/healthz" then (⟨200, .json (.obj [("ok", .bool true)])⟩, [])
  else if path = "/api/webrtc-token" then webrtcTokenHandler env f
  else if path = "/api/webrtc-signed-url" then webrtcSignedUrlHandler env f
  else if path = "/api/verify-agent" then verifyAgentHandler env f
  else if path = "/api/webrtc-token-debug" then webrtcTokenDebugHandler env f
  else
    (⟨404, .json (.obj [("error", .str "not_found"),
      ("hint", .str "Try /, /healthz, /api/webrtc-token, /api/webrtc-signed-url, /api/verify-agent, /api/webrtc-token-debug")])⟩,
     [])

/-- Result of the whole app on one request: either the cors middleware
rejected it before any route handler ran, or a route produced a response
(with the outbound requests it made). -/
inductive AppResult where
  | corsRejected (msg : String) : AppResult
  | handled (resp : Response) (outbound : List OutboundRequest) : AppResult

/-- Outbound requests of an app result; a cors-rejected request makes none. -/
def appOutbound : AppResult → List OutboundRequest
  | .corsRejected _ => []
  | .handled _ out => out

/-- The app on one request.  The cors origin callback runs first:
`if (!origin) allow` (absent header or empty value), then the allow-list
`includes` check, else an error that stops the request before any route. -/
def handleRequest (env : Env) (origin : Option String) (path : String) (f : Oracle) : AppResult :=
  match origin with
  | none => .handled (dispatch env path f).1 (dispatch env path f).2
  | some o =>
    if o = "" then .handled (dispatch env path f).1 (dispatch env path f).2
    else if (allowListOf env.allowedOrigins).contains o then
      .handled (dispatch env path f).1 (dispatch env path f).2
    else .corsRejected ("Origin not allowed: " ++ o)

/-! ### Theorems -/

/-- C2: on every proxying endpoint, if either configuration value is missing
or empty the response is HTTP 500 with body `error: missing_env_vars` and no
outbound request is made. -/
theorem c2_missing_env_vars (env : Env) (f : Oracle)
    (h : env.elevenApiKey = "" ∨ env.elevenAgentId = "") :
    webrtcTokenHandler env f = (missingEnvResp, []) ∧
    webrtcSignedUrlHandler env f = (missingEnvResp, []) ∧
    verifyAgentHandler env f = (missingEnvResp, []) ∧
    webrtcTokenDebugHandler env f = (missingEnvResp, []) := by
  unfold webrtcTokenHandler webrtcSignedUrlHandler verifyAgentHandler webrtcTokenDebugHandler
  simp only [if_pos h]
  exact ⟨trivial, trivial, trivial, trivial⟩

/-- Witness for C2 at a concrete empty key. -/
theorem c2_missing_env_vars_witness :
    (("" : String) = "" ∨ ("agent" : String) = "") ∧
    webrtcTokenHandler ⟨"", "agent", ""⟩ (fun _ => .failure "net down") = (missingEnvResp, []) ∧
    webrtcSignedUrlHandler ⟨"", "agent", ""⟩ (fun _ => .failure "net down") = (missingEnvResp, []) ∧
    verifyAgentHandler ⟨"", "agent", ""⟩ (fun _ => .failure "net down") = (missingEnvResp, []) ∧
    webrtcTokenDebugHandler ⟨"", "agent", ""⟩ (fun _ => .failure "net down") = (missingEnvResp, []) :=
  ⟨Or.inl rfl, c2_missing_env_vars ⟨"", "agent", ""⟩ _ (Or.inl rfl)⟩

/-- C4: with configuration present, the token and signed-url endpoints
return exactly the upstream status and the upstream body text, unmodified,
for every upstream response. -/
theorem c4_raw_passthrough (env : Env) (f : Oracle) (s1 s2 : Nat) (t1 t2 : String)
    (hk : env.elevenApiKey ≠ "") (ha : env.elevenAgentId ≠ "")
    (h1 : f (tokenUrl env.elevenAgentId) = .success s1 t1)
    (h2 : f (signedUrlUrl env.elevenAgentId) = .success s2 t2) :
    webrtcTokenHandler env f =
      (⟨s1, .text t1⟩, [mkReq (tokenUrl env.elevenAgentId) env.elevenApiKey]) ∧
    webrtcSignedUrlHandler env f =
      (⟨s2, .text t2⟩, [mkReq (signedUrlUrl env.elevenAgentId) env.elevenApiKey]) := by
  have hmiss : ¬(env.elevenApiKey = "" ∨ env.elevenAgentId = "") := fun hc => hc.elim hk ha
  unfold webrtcTokenHandler webrtcSignedUrlHandler
  rw [if_neg hmiss, if_neg hmiss, h1, h2]
  exact ⟨rfl, rfl⟩

/-- Witness for C4 at upstream status 503. -/
theorem c4_raw_passthrough_witness :
    webrtcTokenHandler ⟨"k", "A", ""⟩ (fun _ => .success 503 "Service Unavailable") =
      (⟨503, .text "Service Unavailable"⟩, [mkReq (tokenUrl "A") "k"]) ∧
    webrtcSignedUrlHandler ⟨"k", "A", ""⟩ (fun _ => .success 503 "Service Unavailable") =
      (⟨503, .text "Service Unavailable"⟩, [mkReq (signedUrlUrl "A") "k"]) :=
  c4_raw_passthrough ⟨"k", "A", ""⟩ _ 503 503 "Service Unavailable" "Service Unavailable"
    (by decide) (by decide) rfl rfl

/-- C9: with configuration present, a fetch that throws is caught at each
handler boundary and becomes HTTP 500 with body
`error: server_error, detail: String(e)`; a throwing r.json() parse in the
debug endpoint is caught the same way.  Handlers are total functions, so no
request terminates without a response. -/
theorem c9_catch_all (env : Env) (f : Oracle) (m : String) (s : Nat) (t : String)
    (hk : env.elevenApiKey ≠ "") (ha : env.elevenAgentId ≠ "") :
    (f (tokenUrl env.elevenAgentId) = .failure m →
      webrtcTokenHandler env f =
        (serverErrorResp m, [mkReq (tokenUrl env.elevenAgentId) env.elevenApiKey])) ∧
    (f (signedUrlUrl env.elevenAgentId) = .failure m →
      webrtcSignedUrlHandler env f =
        (serverErrorResp m, [mkReq (signedUrlUrl env.elevenAgentId) env.elevenApiKey])) ∧
    (∀ url rest, f url = .failure m →
      verifyLoop f env.elevenApiKey env.elevenAgentId (url :: rest) =
        (serverErrorResp m, [mkReq url env.elevenApiKey])) ∧
    (f (tokenUrl env.elevenAgentId) = .failure m →
      webrtcTokenDebugHandler env f =
        (serverErrorResp m, [mkReq (tokenUrl env.elevenAgentId) env.elevenApiKey])) ∧
    (f (tokenUrl env.elevenAgentId) = .success s t → parseJson t = none →
      webrtcTokenDebugHandler env f =
        (serverErrorResp (jsErrString .invalidJson),
          [mkReq (tokenUrl env.elevenAgentId) env.elevenApiKey])) := by
  have hmiss : ¬(env.elevenApiKey = "" ∨ env.elevenAgentId = "") := fun hc => hc.elim hk ha
  refine ⟨fun h => ?_, fun h => ?_, fun url rest h => ?_, fun h => ?_, fun h hp => ?_⟩
  · unfold webrtcTokenHandler
    rw [if_neg hmiss, h]
    rfl
  · unfold webrtcSignedUrlHandler
    rw [if_neg hmiss, h]
    rfl
  · unfold verifyLoop
    rw [h]
  · unfold webrtcTokenDebugHandler
    rw [if_neg hmiss, h]
    rfl
  · unfold webrtcTokenDebugHandler
    rw [if_neg hmiss, h]
    simp [debugResponse, hp]

/-- Witness for C9: a throwing fetch and a non-JSON upstream body. -/
theorem c9_catch_all_witness :
    webrtcTokenHandler ⟨"k", "A", ""⟩ (fun _ => .failure "FetchError: network") =
      (serverErrorResp "FetchError: network", [mkReq (tokenUrl "A") "k"]) ∧
    webrtcTokenDebugHandler ⟨"k", "A", ""⟩ (fun _ => .success 200 "not json") =
      (serverErrorResp (jsErrString .invalidJson), [mkReq (tokenUrl "A") "k"]) :=
  ⟨(c9_catch_all ⟨"k", "A", ""⟩ (fun _ => .failure "FetchError: network")
      "FetchError: network" 0 "" (by decide) (by decide)).1 rfl,
   (c9_catch_all ⟨"k", "A", ""⟩ (fun _ => .success 200 "not json")
      "" 200 "not json" (by decide) (by decide)).2.2.2.2 rfl rfl⟩

/-- A 404 upstream status never exits the verify-agent loop. -/
lemma verifyStep_404 (a u t : String) : verifyStep a u 404 t = none := by
  have hok : ¬ fetchOk 404 := by unfold fetchOk; omega
  unfold verifyStep
  rw [if_neg hok]
  simp

/-- A non-404 upstream status always exits the verify-agent loop. -/
lemma verifyStep_ne_404 (a u : String) (s : Nat) (t : String) (hs : s ≠ 404) :
    ∃ r, verifyStep a u s t = some r := by
  unfold verifyStep
  cases hx : (if fetchOk s then verifyOkStep a u t else none) with
  | some r => exact ⟨r, rfl⟩
  | none => exact ⟨⟨s, .text t⟩, by simp [hs]⟩

/-- Candidates that answer 404 are consumed by the loop in order, each
contributing exactly one outbound request, before the remaining candidates
are considered. -/
lemma verifyLoop_append_404 (f : Oracle) (key a : String) (pre rest : List String)
    (h : ∀ v ∈ pre, ∃ t, f v = .success 404 t) :
    verifyLoop f key a (pre ++ rest) =
      ((verifyLoop f key a rest).1,
        pre.map (fun v => mkReq v key) ++ (verifyLoop f key a rest).2) := by
  induction pre with
  | nil => simp
  | cons v vs ih =>
    obtain ⟨tv, hv⟩ := h v (List.mem_cons_self v vs)
    have hvs : ∀ w ∈ vs, ∃ t, f w = .success 404 t :=
      fun w hw => h w (List.mem_cons_of_mem v hw)
    simp only [List.cons_append, verifyLoop, hv, verifyStep_404, List.map_cons, List.append_eq]
    rw [ih hvs]

/-- C5: the verify-agent candidates are queried one at a time in their fixed
order; the loop returns at the first candidate whose status is not 404, so a
candidate is contacted exactly when every earlier candidate returned 404,
and the response is determined by that first non-404 candidate alone. -/
theorem c5_first_non_404 (env : Env) (f : Oracle) (pre post : List String) (u : String)
    (s : Nat) (t : String)
    (hk : env.elevenApiKey ≠ "") (ha : env.elevenAgentId ≠ "")
    (hsplit : verifyUrls env.elevenAgentId = pre ++ u :: post)
    (h404 : ∀ v ∈ pre, ∃ tv, f v = .success 404 tv)
    (hu : f u = .success s t) (hs : s ≠ 404) :
    ((verifyAgentHandler env f).2).map (fun r => r.url) = pre ++ [u] ∧
    (verifyAgentHandler env f).1 = (verifyLoop f env.elevenApiKey env.elevenAgentId [u]).1 := by
  have hmiss : ¬(env.elevenApiKey = "" ∨ env.elevenAgentId = "") := fun hc => hc.elim hk ha
  obtain ⟨r, hr⟩ := verifyStep_ne_404 env.elevenAgentId u s t hs
  unfold verifyAgentHandler
  rw [if_neg hmiss, hsplit, verifyLoop_append_404 f env.elevenApiKey env.elevenAgentId pre
    (u :: post) h404]
  constructor
  · simp only [verifyLoop, hu, hr, List.map_append, List.map_map]
    have hcomp : ((fun r : OutboundRequest => r.url) ∘ fun v => mkReq v env.elevenApiKey) =
        fun v => v := rfl
    rw [hcomp]
    simp [mkReq]
  · simp only [verifyLoop, hu, hr]

/-- Witness for C5: the second candidate is the first non-404 one, so the
third is never contacted. -/
theorem c5_first_non_404_witness :
    ((verifyAgentHandler ⟨"k", "A", ""⟩
        (fun u => if u = verifyUrl1 "A" then .success 404 "nf" else .success 503 "busy")).2).map
      (fun r => r.url) = [verifyUrl1 "A"] ++ [verifyUrl2 "A"] ∧
    (verifyAgentHandler ⟨"k", "A", ""⟩
        (fun u => if u = verifyUrl1 "A" then .success 404 "nf" else .success 503 "busy")).1 =
      (verifyLoop (fun u => if u = verifyUrl1 "A" then .success 404 "nf" else .success 503 "busy")
        "k" "A" [verifyUrl2 "A"]).1 :=
  c5_first_non_404 ⟨"k", "A", ""⟩
    (fun u => if u = verifyUrl1 "A" then .success 404 "nf" else .success 503 "busy")
    [verifyUrl1 "A"] [verifyUrl3] (verifyUrl2 "A") 503 "busy"
    (by decide) (by decide) rfl
    (fun v hv => by rw [List.mem_singleton] at hv; subst hv; exact ⟨"nf", rfl⟩)
    rfl (by decide)

/-- C6: when the first two candidates return 404 and the third returns a
success-status body whose `agents` collection is an array, the array is
searched linearly (List.find?) for the first entry whose `agent_id` or `id`
equals the configured agent id, and the response is
`ok: true, from: <third URL>, agent: <found entry>`. -/
theorem c6_list_search (env : Env) (f : Oracle) (t1 t2 t3 : String) (s : Nat)
    (j : Json) (l : List Json) (a : Json)
    (hk : env.elevenApiKey ≠ "") (ha : env.elevenAgentId ≠ "")
    (h1 : f (verifyUrl1 env.elevenAgentId) = .success 404 t1)
    (h2 : f (verifyUrl2 env.elevenAgentId) = .success 404 t2)
    (h3 : f verifyUrl3 = .success s t3)
    (hok : fetchOk s)
    (hp : parseJson t3 = some j)
    (hl : getAgentsArr j = some l)
    (hf : l.find? (agentMatches env.elevenAgentId) = some a) :
    verifyAgentHandler env f =
      (⟨200, .json (.obj [("ok", .bool true), ("from", .str verifyUrl3), ("agent", a)])⟩,
       [mkReq (verifyUrl1 env.elevenAgentId) env.elevenApiKey,
        mkReq (verifyUrl2 env.elevenAgentId) env.elevenApiKey,
        mkReq verifyUrl3 env.elevenApiKey]) := by
  have hmiss : ¬(env.elevenApiKey = "" ∨ env.elevenAgentId = "") := fun hc => hc.elim hk ha
  have hstep : verifyStep env.elevenAgentId verifyUrl3 s t3 =
      some ⟨200, .json (.obj [("ok", .bool true), ("from", .str verifyUrl3), ("agent", a)])⟩ := by
    simp only [verifyStep, verifyOkStep, if_pos hok, hp, hl, hf]
  unfold verifyAgentHandler verifyUrls
  rw [if_neg hmiss]
  simp only [verifyLoop, h1, h2, h3, verifyStep_404, hstep]

/-- Witness for C6: exactly the scenario of the claim, with agent id "Y" and
body agents = [agent_id X, agent_id Y]. -/
theorem c6_list_search_witness :
    verifyAgentHandler ⟨"k", "Y", ""⟩
      (fun u => if u = verifyUrl1 "Y" then .success 404 "nf"
        else if u = verifyUrl2 "Y" then .success 404 "nf"
        else .success 200 "\x7b\"agents\":[\x7b\"agent_id\":\"X\"\x7d,\x7b\"agent_id\":\"Y\"\x7d]\x7d") =
      (⟨200, .json (.obj [("ok", .bool true), ("from", .str verifyUrl3),
          ("agent", .obj [("agent_id", .str "Y")])])⟩,
       [mkReq (verifyUrl1 "Y") "k", mkReq (verifyUrl2 "Y") "k", mkReq verifyUrl3 "k"]) :=
  c6_list_search ⟨"k", "Y", ""⟩
    (fun u => if u = verifyUrl1 "Y" then .success 404 "nf"
      else if u = verifyUrl2 "Y" then .success 404 "nf"
      else .success 200 "\x7b\"agents\":[\x7b\"agent_id\":\"X\"\x7d,\x7b\"agent_id\":\"Y\"\x7d]\x7d")
    "nf" "nf" "\x7b\"agents\":[\x7b\"agent_id\":\"X\"\x7d,\x7b\"agent_id\":\"Y\"\x7d]\x7d" 200
    (.obj [("agents", .arr [.obj [("agent_id", .str "X")], .obj [("agent_id", .str "Y")]])])
    [.obj [("agent_id", .str "X")], .obj [("agent_id", .str "Y")]]
    (.obj [("agent_id", .str "Y")])
    (by decide) (by decide) rfl rfl rfl (by decide) rfl rfl rfl

/-- C7 counterexample: the first candidate returns status 200 with an
`agents` array that does not contain the configured agent, so no candidate
yields any of the `ok/from/...` success shapes, yet the endpoint does not
respond with the synthetic 404 payload: it forwards the 200 raw text. -/
theorem c7_counterexample :
    verifyAgentHandler ⟨"k", "Y", ""⟩ (fun _ => .success 200 "\x7b\"agents\":[]\x7d") =
      (⟨200, .text "\x7b\"agents\":[]\x7d"⟩, [mkReq (verifyUrl1 "Y") "k"]) ∧
    (200 : Nat) ≠ 404 :=
  ⟨rfl, by decide⟩

/-- C7 (amended): the synthetic 404
`ok: false, error: agent_not_found_on_any_endpoint, agentId` is returned
exactly in the case that every candidate URL returned status 404 (a
success-status response always exits the loop, even when it is an array
without the configured agent, in which case it is forwarded raw). -/
theorem c7_all_404_synthetic_not_found (env : Env) (f : Oracle)
    (hk : env.elevenApiKey ≠ "") (ha : env.elevenAgentId ≠ "")
    (h404 : ∀ v ∈ verifyUrls env.elevenAgentId, ∃ t, f v = .success 404 t) :
    verifyAgentHandler env f =
      (agentNotFoundResp env.elevenAgentId,
       (verifyUrls env.elevenAgentId).map (fun v => mkReq v env.elevenApiKey)) := by
  have hmiss : ¬(env.elevenApiKey = "" ∨ env.elevenAgentId = "") := fun hc => hc.elim hk ha
  have hall := verifyLoop_append_404 f env.elevenApiKey env.elevenAgentId
    (verifyUrls env.elevenAgentId) [] h404
  rw [List.append_nil] at hall
  unfold verifyAgentHandler
  rw [if_neg hmiss, hall]
  simp [verifyLoop]

/-- Witness for the amended C7: all three candidates answer 404. -/
theorem c7_all_404_synthetic_not_found_witness :
    verifyAgentHandler ⟨"k", "A", ""⟩ (fun _ => .success 404 "nf") =
      (agentNotFoundResp "A",
       (verifyUrls "A").map (fun v => mkReq v "k")) :=
  c7_all_404_synthetic_not_found ⟨"k", "A", ""⟩ (fun _ => .success 404 "nf")
    (by decide) (by decide) (fun v _ => ⟨"nf", rfl⟩)

/-- The caller-visible response of the verify-agent loop does not depend on
the key value. -/
lemma verifyLoop_resp_key (f : Oracle) (a : String) (urls : List String) (k1 k2 : String) :
    (verifyLoop f k1 a urls).1 = (verifyLoop f k2 a urls).1 := by
  induction urls with
  | nil => rfl
  | cons u rest ih =>
    simp only [verifyLoop]
    cases f u with
    | failure m => rfl
    | success s t =>
      dsimp only
      cases verifyStep a u s t with
      | some r => rfl
      | none => exact ih

/-- Every outbound request of the verify-agent loop carries exactly the
xi-api-key header. -/
lemma verifyLoop_headers (f : Oracle) (k a : String) (urls : List String) :
    ∀ r ∈ (verifyLoop f k a urls).2, r.headers = [("xi-api-key", k)] := by
  induction urls with
  | nil => intro r hr; simp [verifyLoop] at hr
  | cons u rest ih =>
    intro r hr
    simp only [verifyLoop] at hr
    cases hf : f u with
    | failure m =>
      rw [hf] at hr
      simp at hr
      subst hr
      rfl
    | success s t =>
      rw [hf] at hr
      dsimp only at hr
      cases hstep : verifyStep a u s t with
      | some r2 =>
        rw [hstep] at hr
        simp at hr
        subst hr
        rfl
      | none =>
        rw [hstep] at hr
        simp at hr
        rcases hr with hr | hr
        · subst hr; rfl
        · exact ih r hr

/-- C1 counterexample: the claim quantifies over every upstream response,
but when the upstream body itself contains the key the passthrough endpoint
returns it to the caller verbatim, so the key does appear in a response
body. -/
theorem c1_counterexample :
    (webrtcTokenHandler ⟨"SECRET", "A", ""⟩ (fun _ => .success 200 "SECRET")).1 =
      ⟨200, .text "SECRET"⟩ ∧
    (⟨"SECRET", "A", ""⟩ : Env).elevenApiKey = "SECRET" :=
  ⟨rfl, rfl⟩

/-- C1 (amended): the configured key is placed outbound only as the sole
xi-api-key header of every outbound request, and the caller-visible response
of every endpoint is independent of the (nonempty) key value given the same
upstream outcomes — so the handlers themselves never put the key into a
response; it can appear there only when the upstream data already contains
it. -/
theorem c1_key_confinement (env : Env) (f : Oracle) (k1 k2 : String)
    (h1 : k1 ≠ "") (h2 : k2 ≠ "") :
    (∀ r ∈ (webrtcTokenHandler env f).2, r.headers = [("xi-api-key", env.elevenApiKey)]) ∧
    (∀ r ∈ (webrtcSignedUrlHandler env f).2, r.headers = [("xi-api-key", env.elevenApiKey)]) ∧
    (∀ r ∈ (verifyAgentHandler env f).2, r.headers = [("xi-api-key", env.elevenApiKey)]) ∧
    (∀ r ∈ (webrtcTokenDebugHandler env f).2, r.headers = [("xi-api-key", env.elevenApiKey)]) ∧
    (webrtcTokenHandler ⟨k1, env.elevenAgentId, env.allowedOrigins⟩ f).1 =
      (webrtcTokenHandler ⟨k2, env.elevenAgentId, env.allowedOrigins⟩ f).1 ∧
    (webrtcSignedUrlHandler ⟨k1, env.elevenAgentId, env.allowedOrigins⟩ f).1 =
      (webrtcSignedUrlHandler ⟨k2, env.elevenAgentId, env.allowedOrigins⟩ f).1 ∧
    (verifyAgentHandler ⟨k1, env.elevenAgentId, env.allowedOrigins⟩ f).1 =
      (verifyAgentHandler ⟨k2, env.elevenAgentId, env.allowedOrigins⟩ f).1 ∧
    (webrtcTokenDebugHandler ⟨k1, env.elevenAgentId, env.allowedOrigins⟩ f).1 =
      (webrtcTokenDebugHandler ⟨k2, env.elevenAgentId, env.allowedOrigins⟩ f).1 := by
  refine ⟨?_, ?_, ?_, ?_, ?_, ?_, ?_, ?_⟩
  · intro r hr
    unfold webrtcTokenHandler at hr
    split at hr
    · simp at hr
    · simp at hr; subst hr; rfl
  · intro r hr
    unfold webrtcSignedUrlHandler at hr
    split at hr
    · simp at hr
    · simp at hr; subst hr; rfl
  · intro r hr
    unfold verifyAgentHandler at hr
    split at hr
    · simp at hr
    · exact verifyLoop_headers f env.elevenApiKey env.elevenAgentId _ r hr
  · intro r hr
    unfold webrtcTokenDebugHandler at hr
    split at hr
    · simp at hr
    · simp at hr; subst hr; rfl
  · by_cases haid : env.elevenAgentId = ""
    · unfold webrtcTokenHandler
      rw [if_pos (Or.inr haid), if_pos (Or.inr haid)]
    · unfold webrtcTokenHandler
      rw [if_neg (fun hc => hc.elim h1 haid), if_neg (fun hc => hc.elim h2 haid)]
  · by_cases haid : env.elevenAgentId = ""
    · unfold webrtcSignedUrlHandler
      rw [if_pos (Or.inr haid), if_pos (Or.inr haid)]
    · unfold webrtcSignedUrlHandler
      rw [if_neg (fun hc => hc.elim h1 haid), if_neg (fun hc => hc.elim h2 haid)]
  · by_cases haid : env.elevenAgentId = ""
    · unfold verifyAgentHandler
      rw [if_pos (Or.inr haid), if_pos (Or.inr haid)]
    · unfold verifyAgentHandler
      rw [if_neg (fun hc => hc.elim h1 haid), if_neg (fun hc => hc.elim h2 haid)]
      exact verifyLoop_resp_key f env.elevenAgentId _ k1 k2
  · by_cases haid : env.elevenAgentId = ""
    · unfold webrtcTokenDebugHandler
      rw [if_pos (Or.inr haid), if_pos (Or.inr haid)]
    · unfold webrtcTokenDebugHandler
      rw [if_neg (fun hc => hc.elim h1 haid), if_neg (fun hc => hc.elim h2 haid)]

/-- Witness for the amended C1: two different nonempty keys produce the same
caller-visible response. -/
theorem c1_key_confinement_witness :
    (webrtcTokenHandler ⟨"a", "A", ""⟩ (fun _ => .success 200 "body")).1 =
      (webrtcTokenHandler ⟨"b", "A", ""⟩ (fun _ => .success 200 "body")).1 ∧
    (verifyAgentHandler ⟨"a", "A", ""⟩ (fun _ => .success 200 "body")).1 =
      (verifyAgentHandler ⟨"b", "A", ""⟩ (fun _ => .success 200 "body")).1 :=
  ⟨(c1_key_confinement ⟨"a", "A", ""⟩ (fun _ => .success 200 "body") "a" "b"
      (by decide) (by decide)).2.2.2.2.1,
   (c1_key_confinement ⟨"a", "A", ""⟩ (fun _ => .success 200 "body") "a" "b"
      (by decide) (by decide)).2.2.2.2.2.2.1⟩

/-- Trimming a list of whitespace characters leaves nothing. -/
lemma trim_of_all_ws (l : List Char) (h : ∀ c ∈ l, jsWhitespace c = true) :
    trimChars l = [] := by
  have h1 : l.dropWhile jsWhitespace = [] := by
    induction l with
    | nil => rfl
    | cons c cs ih =>
      rw [List.dropWhile_cons, if_pos (h c (List.mem_cons_self c cs))]
      exact ih fun d hd => h d (List.mem_cons_of_mem c hd)
  unfold trimChars
  rw [h1]
  rfl

/-- splitOnChar never produces an empty list of groups. -/
lemma splitOnChar_ne_nil (sep : Char) (l : List Char) : splitOnChar sep l ≠ [] := by
  cases l with
  | nil => simp [splitOnChar]
  | cons c cs =>
    unfold splitOnChar
    split <;> simp

/-- Every character of every group of splitOnChar is a non-separator
character of the input. -/
lemma mem_splitOnChar (sep : Char) (l : List Char) (g : List Char)
    (hg : g ∈ splitOnChar sep l) : ∀ c ∈ g, c ∈ l ∧ c ≠ sep := by
  induction l generalizing g with
  | nil =>
    simp [splitOnChar] at hg
    subst hg
    intro c hc
    simp at hc
  | cons x xs ih =>
    unfold splitOnChar at hg
    by_cases hx : x = sep
    · rw [if_pos hx] at hg
      rcases List.mem_cons.mp hg with hg | hg
      · subst hg
        intro c hc
        simp at hc
      · intro c hc
        obtain ⟨h1, h2⟩ := ih g hg c hc
        exact ⟨List.mem_cons_of_mem x h1, h2⟩
    · rw [if_neg hx] at hg
      rcases List.mem_cons.mp hg with hg | hg
      · subst hg
        intro c hc
        rcases List.mem_cons.mp hc with hc | hc
        · subst hc
          exact ⟨List.mem_cons_self _ _, hx⟩
        · have hmem : (splitOnChar sep xs).headD [] ∈ splitOnChar sep xs := by
            cases hsp : splitOnChar sep xs with
            | nil => exact absurd hsp (splitOnChar_ne_nil sep xs)
            | cons a as => simp
          obtain ⟨h1, h2⟩ := ih _ hmem c hc
          exact ⟨List.mem_cons_of_mem x h1, h2⟩
      · have hmem : g ∈ splitOnChar sep xs := List.mem_of_mem_tail hg
        intro c hc
        obtain ⟨h1, h2⟩ := ih g hmem c hc
        exact ⟨List.mem_cons_of_mem x h1, h2⟩

/-- An origins configuration consisting only of commas and whitespace yields
an empty allow-list. -/
lemma allowListOf_eq_nil (s : String)
    (h : ∀ c ∈ s.data, c = ',' ∨ jsWhitespace c = true) :
    allowListOf s = [] := by
  unfold allowListOf
  rw [List.filter_eq_nil_iff]
  intro t ht
  obtain ⟨g, hg, rfl⟩ := List.mem_map.mp ht
  have hall : ∀ c ∈ g, jsWhitespace c = true := by
    intro c hc
    obtain ⟨h1, h2⟩ := mem_splitOnChar ',' s.data g hg c hc
    rcases h c h1 with hcomma | hws
    · exact absurd hcomma h2
    · exact hws
  rw [trim_of_all_ws g hall]
  decide

/-- Each comma-separated configuration entry, trimmed and nonempty, is in
the allow-list. -/
lemma mem_allowListOf (s : String) (g : List Char) (hg : g ∈ splitOnChar ',' s.data)
    (hne : trimChars g ≠ []) : String.mk (trimChars g) ∈ allowListOf s := by
  unfold allowListOf
  rw [List.mem_filter]
  refine ⟨List.mem_map.mpr ⟨g, hg, rfl⟩, ?_⟩
  have : String.mk (trimChars g) ≠ "" := fun hs => hne (congrArg String.data hs)
  simpa using this

/-- C3 counterexample: a request that carries an Origin header with an empty
value is allowed (the callback tests JS truthiness, not header presence),
although the empty string never equals an entry of the allow-list. -/
theorem c3_counterexample :
    ("" ∉ allowListOf "https://app.example.com") ∧
    handleRequest ⟨"k", "A", "https://app.example.com"⟩ (some "") "/"
      (fun _ => .failure "down") = .handled ⟨200, .text "OK"⟩ [] :=
  ⟨by decide, rfl⟩

/-- C3 (amended): a request with no Origin header, or with an empty Origin
value, is never rejected on cross-origin grounds; a request with a nonempty
Origin value is dispatched to the routes if and only if the value exactly
equals an entry of the configured allow-list, and is otherwise rejected with
an error before any route handler runs (zero outbound requests). -/
theorem c3_cors_policy (env : Env) (path : String) (f : Oracle) :
    handleRequest env none path f = .handled (dispatch env path f).1 (dispatch env path f).2 ∧
    handleRequest env (some "") path f =
      .handled (dispatch env path f).1 (dispatch env path f).2 ∧
    (∀ o, o ∈ allowListOf env.allowedOrigins →
      handleRequest env (some o) path f =
        .handled (dispatch env path f).1 (dispatch env path f).2) ∧
    (∀ o, o ≠ "" → o ∉ allowListOf env.allowedOrigins →
      handleRequest env (some o) path f = .corsRejected ("Origin not allowed: " ++ o) ∧
      appOutbound (handleRequest env (some o) path f) = []) := by
  refine ⟨rfl, rfl, fun o ho => ?_, fun o ho hno => ?_⟩
  · unfold handleRequest
    dsimp only
    by_cases h0 : o = ""
    · rw [if_pos h0]
    · rw [if_neg h0, if_pos (List.elem_iff.mpr ho)]
  · have hrej : handleRequest env (some o) path f =
        .corsRejected ("Origin not allowed: " ++ o) := by
      unfold handleRequest
      dsimp only
      rw [if_neg ho, if_neg (fun hc => hno (List.elem_iff.mp hc))]
    exact ⟨hrej, by rw [hrej]; rfl⟩

/-- Witness for the amended C3: an allowed listed origin, and a rejected
unlisted one. -/
theorem c3_cors_policy_witness :
    ("https://a.com" ∈ allowListOf "https://a.com") ∧
    handleRequest ⟨"k", "A", "https://a.com"⟩ (some "https://a.com") "/healthz"
        (fun _ => .failure "down") =
      .handled (dispatch ⟨"k", "A", "https://a.com"⟩ "/healthz" (fun _ => .failure "down")).1
        (dispatch ⟨"k", "A", "https://a.com"⟩ "/healthz" (fun _ => .failure "down")).2 ∧
    handleRequest ⟨"k", "A", "https://a.com"⟩ (some "https://evil.com") "/healthz"
        (fun _ => .failure "down") =
      .corsRejected ("Origin not allowed: " ++ "https://evil.com") :=
  ⟨by decide,
   (c3_cors_policy ⟨"k", "A", "https://a.com"⟩ "/healthz" (fun _ => .failure "down")).2.2.1
     "https://a.com" (by decide),
   ((c3_cors_policy ⟨"k", "A", "https://a.com"⟩ "/healthz" (fun _ => .failure "down")).2.2.2
     "https://evil.com" (by decide) (by decide)).1⟩

/-- C10 counterexample: with an origins configuration of only commas the
allow-list is empty, yet a request carrying an (empty-valued) Origin header
is still allowed, contradicting the claim that every request carrying an
Origin header is then rejected. -/
theorem c10_counterexample :
    allowListOf "," = [] ∧
    handleRequest ⟨"k", "A", ","⟩ (some "") "/healthz" (fun _ => .failure "down") =
      .handled ⟨200, .json (.obj [("ok", .bool true)])⟩ [] :=
  ⟨rfl, rfl⟩

/-- C10 (amended): the allow-list splits the configured string on commas,
trims each entry and drops empty ones; hence a configuration of only commas
and whitespace yields an empty allow-list and every request carrying a
nonempty Origin value is rejected, while a trimmed nonempty entry — even one
surrounded by spaces in the configuration — is in the allow-list, so an
Origin exactly equal to it is admitted. -/
theorem c10_allowlist (s : String) (env : Env) (path : String) (f : Oracle) (o : String)
    (g : List Char)
    (hcfg : ∀ c ∈ env.allowedOrigins.data, c = ',' ∨ jsWhitespace c = true)
    (ho : o ≠ "")
    (hg : g ∈ splitOnChar ',' s.data) (hgne : trimChars g ≠ []) :
    allowListOf env.allowedOrigins = [] ∧
    handleRequest env (some o) path f = .corsRejected ("Origin not allowed: " ++ o) ∧
    String.mk (trimChars g) ∈ allowListOf s := by
  have hnil := allowListOf_eq_nil env.allowedOrigins hcfg
  refine ⟨hnil, ?_, mem_allowListOf s g hg hgne⟩
  unfold handleRequest
  dsimp only
  rw [if_neg ho, hnil]
  rfl

/-- Witness for the amended C10: a comma/space-only configuration rejects a
nonempty origin, and an entry written with surrounding spaces matches its
trimmed origin. -/
theorem c10_allowlist_witness :
    allowListOf " , ," = [] ∧
    handleRequest ⟨"k", "A", " , ,"⟩ (some "https://a.com") "/healthz"
      (fun _ => .failure "down") =
      .corsRejected ("Origin not allowed: " ++ "https://a.com") ∧
    String.mk (trimChars " https://a.com ".data) ∈ allowListOf " https://a.com " :=
  c10_allowlist " https://a.com " ⟨"k", "A", " , ,"⟩ "/healthz" (fun _ => .failure "down")
    "https://a.com" " https://a.com ".data
    (by decide) (by decide) (by decide) (by decide)

/-- C8: with configuration present and a parsed upstream body, the debug
endpoint forwards a non-ok upstream status together with the parsed JSON
body; on an ok status it extracts the token field, base64url-decodes the
second dot-separated segment (URL-safe characters mapped back to standard
base64), parses the result and returns
`token_issued_for_agent_env: <agent id>, decoded_payload: <payload>`. -/
theorem c8_debug_decode (env : Env) (f : Oracle) (s : Nat) (t : String)
    (hk : env.elevenApiKey ≠ "") (ha : env.elevenAgentId ≠ "")
    (hr : f (tokenUrl env.elevenAgentId) = .success s t) :
    (∀ j, parseJson t = some j → ¬ fetchOk s →
      webrtcTokenDebugHandler env f =
        (⟨s, .json j⟩, [mkReq (tokenUrl env.elevenAgentId) env.elevenApiKey])) ∧
    (∀ j tok seg payload, parseJson t = some j → fetchOk s →
      jsonGetField j "token" = some (.str tok) →
      ((splitOnChar '.' tok.data).drop 1).head? = some seg →
      parseJson (utf8Decode (base64DecodeVals
        (replaceChar '_' '/' (replaceChar '-' '+' seg)))) = some payload →
      webrtcTokenDebugHandler env f =
        (⟨200, .json (.obj [("token_issued_for_agent_env", .str env.elevenAgentId),
          ("decoded_payload", payload)])⟩,
         [mkReq (tokenUrl env.elevenAgentId) env.elevenApiKey])) := by
  have hmiss : ¬(env.elevenApiKey = "" ∨ env.elevenAgentId = "") := fun hc => hc.elim hk ha
  constructor
  · intro j hp hnok
    unfold webrtcTokenDebugHandler
    rw [if_neg hmiss, hr]
    simp only [debugResponse, hp, if_pos hnok]
  · intro j tok seg payload hp hok htok hseg hdec
    unfold webrtcTokenDebugHandler
    rw [if_neg hmiss, hr]
    simp only [debugResponse, hp, htok, hseg, hdec, if_neg (not_not_intro hok)]

/-- Witness for C8: a 200 body whose token's middle segment base64url-decodes
to the JSON exp 123, and a 403 body forwarded with its status. -/
theorem c8_debug_decode_witness :
    webrtcTokenDebugHandler ⟨"k", "A", ""⟩
        (fun _ => .success 200 "\x7b\"token\":\"h.eyJleHAiOjEyM30.s\"\x7d") =
      (⟨200, .json (.obj [("token_issued_for_agent_env", .str "A"),
          ("decoded_payload", .obj [("exp", .num 123)])])⟩,
       [mkReq (tokenUrl "A") "k"]) ∧
    webrtcTokenDebugHandler ⟨"k", "A", ""⟩ (fun _ => .success 403 "\x7b\"detail\":\"no\"\x7d") =
      (⟨403, .json (.obj [("detail", .str "no")])⟩, [mkReq (tokenUrl "A") "k"]) :=
  ⟨(c8_debug_decode ⟨"k", "A", ""⟩
      (fun _ => .success 200 "\x7b\"token\":\"h.eyJleHAiOjEyM30.s\"\x7d") 200
      "\x7b\"token\":\"h.eyJleHAiOjEyM30.s\"\x7d" (by decide) (by decide) rfl).2
     (.obj [("token", .str "h.eyJleHAiOjEyM30.s")]) "h.eyJleHAiOjEyM30.s"
     "eyJleHAiOjEyM30".data (.obj [("exp", .num 123)]) rfl (by decide) rfl rfl rfl,
   (c8_debug_decode ⟨"k", "A", ""⟩ (fun _ => .success 403 "\x7b\"detail\":\"no\"\x7d") 403
      "\x7b\"detail\":\"no\"\x7d" (by decide) (by decide) rfl).1
     (.obj [("detail", .str "no")]) rfl (by decide)⟩

end TokenServer
